import Mathlib

/-!
Shallow embedding of `GCRS2ITRS.c` (TrackerComponentLibrary): the MEX entry
point that converts batches of position (and optionally velocity) vectors
from the GCRS to the ITRS.  External collaborators (the SOFA routines and the
MATLAB `getEOP` / `Constants` lookups) are modelled as fields of a structure
`Ext`; the control flow, argument validation, EOP-override merging, rotation
composition and the per-vector transform loop are translated directly from
the C source.  Doubles are modelled as rationals so that every definition is
executable.
-/

namespace TCL

/-- A 3-vector of doubles, as the C `double[3]`. -/
structure Vec3 where
  x : ℚ
  y : ℚ
  z : ℚ
deriving DecidableEq

/-- A 3×3 matrix of doubles stored by rows, as the C `double[3][3]`. -/
structure Mat3 where
  r0 : Vec3
  r1 : Vec3
  r2 : Vec3
deriving DecidableEq

/-- Dot product of two 3-vectors. -/
def dot (a b : Vec3) : ℚ := a.x * b.x + a.y * b.y + a.z * b.z

/-- SOFA `iauRxp`: multiply a 3-vector by a rotation matrix, `rp = r * p`. -/
def iauRxp (r : Mat3) (p : Vec3) : Vec3 := ⟨dot r.r0 p, dot r.r1 p, dot r.r2 p⟩

/-- SOFA `iauPxp`: cross product of two 3-vectors. -/
def iauPxp (a b : Vec3) : Vec3 :=
  ⟨a.y * b.z - a.z * b.y, a.z * b.x - a.x * b.z, a.x * b.y - a.y * b.x⟩

/-- SOFA `iauPmp`: componentwise difference of two 3-vectors. -/
def iauPmp (a b : Vec3) : Vec3 := ⟨a.x - b.x, a.y - b.y, a.z - b.z⟩

/-- The identity matrix `rident` used in place of the polar-motion matrix to
obtain the GCRS-to-TIRS rotation. -/
def identMat3 : Mat3 := ⟨⟨1, 0, 0⟩, ⟨0, 1, 0⟩, ⟨0, 0, 1⟩⟩

/-- A MATLAB `mxArray` holding real doubles: `m` rows, `n` columns and the
column-major flat data. -/
structure MxArray where
  m : Nat
  n : Nat
  data : List ℚ
deriving DecidableEq

/-- `mxIsEmpty`: a MATLAB array is empty when it has zero elements. -/
def mxIsEmpty (a : MxArray) : Prop := a.m = 0 ∨ a.n = 0

instance (a : MxArray) : Decidable (mxIsEmpty a) := by
  unfold mxIsEmpty; infer_instance

/-- The empty `mxArray`, used as the out-of-range default for argument
access (the C code never reads past `nrhs`, guarded by short-circuit
conditions, so the default is never observable). -/
def emptyMx : MxArray := ⟨0, 0, []⟩

/-- `getDoubleFromMatlab`: read a scalar double out of an `mxArray`. -/
def getDoubleFromMatlab (a : MxArray) : ℚ := a.data.headD 0

/-- The external collaborators of `GCRS2ITRS.c`: the SOFA astronomical
routines and the MATLAB-side `getEOP` and `Constants` lookups.  A status
integer models the `int` return codes of `iauTttai` and `iauTaiutc`. -/
structure Ext where
  iauTttai : ℚ → ℚ → Int × ℚ × ℚ
  iauTaiutc : ℚ → ℚ → Int × ℚ × ℚ
  getEOP : ℚ → ℚ → MxArray × MxArray × MxArray × MxArray × MxArray
  iauTtut1 : ℚ → ℚ → ℚ → ℚ × ℚ
  iauXys06a : ℚ → ℚ → ℚ × ℚ × ℚ
  iauC2ixys : ℚ → ℚ → ℚ → Mat3
  iauEra00 : ℚ → ℚ → ℚ
  iauSp00 : ℚ → ℚ → ℚ
  iauPom00 : ℚ → ℚ → ℚ → Mat3
  iauC2tcio : Mat3 → ℚ → Mat3 → Mat3
  meanEarthRotationRate : ℚ

/-- The per-call derived rotation quantities of `GCRS2ITRS.c`: the full
GCRS-to-ITRS matrix, the polar-motion-free GCRS-to-TIRS matrix, the
polar-motion matrix `rpom` and the TIRS angular-velocity vector `Omega`. -/
structure Bundle where
  GCRS2ITRS : Mat3
  GCRS2TIRS : Mat3
  rpom : Mat3
  Omega : Vec3
deriving DecidableEq

/-- The rotation-composition block of `GCRS2ITRS.c` (lines 253-303):
precession-nutation CIP/CIO with additive pole offsets, GCRS-to-CIRS matrix,
Earth rotation angle, TIO locator, polar-motion matrix, the two `iauC2tcio`
compositions, and the LOD-adjusted Earth rotation rate. -/
def composeBundle (ext : Ext) (TT1 TT2 UT11 UT12 xp yp dX dY LOD : ℚ) : Bundle :=
  let xys := ext.iauXys06a TT1 TT2
  let x := xys.1 + dX
  let y := xys.2.1 + dY
  let s := xys.2.2
  let rc2i := ext.iauC2ixys x y s
  let era := ext.iauEra00 UT11 UT12
  let sp := ext.iauSp00 TT1 TT2
  let rpom := ext.iauPom00 xp yp sp
  let g2i := ext.iauC2tcio rc2i era rpom
  let g2t := ext.iauC2tcio rc2i era identMat3
  let omega := ext.meanEarthRotationRate * (1 - LOD / 86400)
  ⟨g2i, g2t, rpom, ⟨0, 0, omega⟩⟩

/-- The EOP-lookup block of `GCRS2ITRS.c` (lines 137-198): TT→TAI→UTC with
status handling, then the `getEOP` call with its shape check.  On success it
returns the warnings emitted together with `(xp, yp)`, `(dX, dY)`, `deltaT`
and `LOD`. -/
def lookupEOP (ext : Ext) (TT1 TT2 : ℚ) :
    Except String (List String × (ℚ × ℚ) × (ℚ × ℚ) × ℚ × ℚ) :=
  let t := ext.iauTttai TT1 TT2
  if t.1 ≠ 0 then .error "An error occurred computing TAI."
  else
    let u := ext.iauTaiutc t.2.1 t.2.2
    if u.1 = -1 then .error "Unacceptable date entered"
    else
      let warns := if u.1 = 1 then ["Dubious Date entered."] else []
      let r := ext.getEOP u.2.1 u.2.2
      if r.1.m = 2 ∧ r.1.n = 1 ∧ r.2.1.m = 2 ∧ r.2.1.n = 1 then
        .ok (warns, (r.1.data.getD 0 0, r.1.data.getD 1 0),
             (r.2.1.data.getD 0 0, r.2.1.data.getD 1 0),
             getDoubleFromMatlab r.2.2.2.1, getDoubleFromMatlab r.2.2.2.2)
      else .error "Error using the getEOP function."

/-- The shape accepted for the `xpyp` and `dXdY` optional arguments: a
2-element column or row. -/
def pairShapeOK (a : MxArray) : Prop :=
  (a.m = 2 ∧ a.n = 1) ∨ (a.m = 1 ∧ a.n = 2)

instance (a : MxArray) : Decidable (pairShapeOK a) := by
  unfold pairShapeOK; infer_instance

/-- One optional 2-element override (`xpyp` or `dXdY`): if the argument is
applicable and non-empty, its shape must be 2×1 or 1×2, otherwise the given
error is raised; an inapplicable or empty argument keeps the default. -/
def pairOverride (applicable : Prop) [Decidable applicable] (a : MxArray)
    (msg : String) (d : ℚ × ℚ) : Except String (ℚ × ℚ) :=
  if applicable ∧ ¬ mxIsEmpty a then
    if pairShapeOK a then
      .ok (a.data.getD 0 0, a.data.getD 1 0)
    else .error msg
  else .ok d

/-- The condition of line 137 of `GCRS2ITRS.c`: the `getEOP` lookup runs
whenever some EOP group is missing (fewer than 7 arguments, or one of the
four optional arguments empty). -/
def needsLookup (prhs : List MxArray) : Prop :=
  prhs.length ≤ 6 ∨ mxIsEmpty (prhs.getD 3 emptyMx) ∨ mxIsEmpty (prhs.getD 4 emptyMx) ∨
    mxIsEmpty (prhs.getD 5 emptyMx) ∨ mxIsEmpty (prhs.getD 6 emptyMx)

instance (prhs : List MxArray) : Decidable (needsLookup prhs) := by
  unfold needsLookup; infer_instance

/-- EOP resolution of `GCRS2ITRS.c`: run the lookup block when some group is
missing (lines 137-198), then merge the explicitly supplied overrides
group-by-group (lines 201-248), including the swapped error strings of the
two shape checks.  Returns `(warnings, deltaT, xp, yp, dX, dY, LOD)`. -/
def resolveEOP (ext : Ext) (prhs : List MxArray) (TT1 TT2 : ℚ) :
    Except String (List String × ℚ × ℚ × ℚ × ℚ × ℚ × ℚ) :=
  let nrhs := prhs.length
  let p3 := prhs.getD 3 emptyMx
  let p4 := prhs.getD 4 emptyMx
  let p5 := prhs.getD 5 emptyMx
  let p6 := prhs.getD 6 emptyMx
  let base :=
    if needsLookup prhs then
      lookupEOP ext TT1 TT2
    else .ok ([], (0, 0), (0, 0), 0, 0)
  match base with
  | .error e => .error e
  | .ok (warns, xpyp0, dXdY0, deltaT0, LOD0) =>
    let deltaT := if 3 < nrhs ∧ ¬ mxIsEmpty p3 then getDoubleFromMatlab p3 else deltaT0
    match pairOverride (4 < nrhs) p4
        "The celestial pole offsets have the wrong dimensionality." xpyp0 with
    | .error e => .error e
    | .ok (xp, yp) =>
      match pairOverride (5 < nrhs) p5
          "The polar motion coordinates have the wrong dimensionality." dXdY0 with
      | .error e => .error e
      | .ok (dX, dY) =>
        let LOD := if 6 < nrhs ∧ ¬ mxIsEmpty p6 then getDoubleFromMatlab p6 else LOD0
        .ok (warns, deltaT, xp, yp, dX, dY, LOD)

/-- Read the 3 entries of column `j` (rows `off`, `off+1`, `off+2`) out of a
column-major `numRow`-row batch, as the C pointer arithmetic
`xVec + numRow*curVec (+ 3)` does. -/
def colVec3 (data : List ℚ) (numRow j off : Nat) : Vec3 :=
  ⟨data.getD (numRow * j + off) 0, data.getD (numRow * j + off + 1) 0,
   data.getD (numRow * j + off + 2) 0⟩

/-- One iteration of the per-vector loop of `GCRS2ITRS.c` (lines 311-343):
rotate the position by the full matrix; when velocity rows are present,
rotate position and velocity into TIRS, subtract `Omega × posTIRS` and
rotate the corrected velocity into the ITRS by the polar-motion matrix. -/
def transformCol (B : Bundle) (numRow : Nat) (data : List ℚ) (j : Nat) : List ℚ :=
  let pos := colVec3 data numRow j 0
  let posOut := iauRxp B.GCRS2ITRS pos
  if 3 < numRow then
    let vel := colVec3 data numRow j 3
    let velTIRS := iauRxp B.GCRS2TIRS vel
    let posTIRS := iauRxp B.GCRS2TIRS pos
    let rotVel := iauPxp B.Omega posTIRS
    let velCorr := iauPmp velTIRS rotVel
    let velOut := iauRxp B.rpom velCorr
    [posOut.x, posOut.y, posOut.z, velOut.x, velOut.y, velOut.z]
  else [posOut.x, posOut.y, posOut.z]

/-- The whole per-vector loop: the output batch, column-major. -/
def transformBatch (B : Bundle) (numRow numVec : Nat) (data : List ℚ) : List ℚ :=
  ((List.range numVec).map (transformCol B numRow data)).flatten

/-- The outputs of a successful call: the transformed batch and, when two
left-hand sides were requested, the GCRS-to-ITRS rotation matrix. -/
structure MexOutput where
  vec : MxArray
  rotMat : Option Mat3
deriving DecidableEq

instance {ε α : Type} [DecidableEq ε] [DecidableEq α] : DecidableEq (Except ε α) :=
  fun a b =>
  match a, b with
  | .error e, .error f => decidable_of_iff (e = f) (by simp)
  | .ok x, .ok y => decidable_of_iff (x = y) (by simp)
  | .error _, .ok _ => isFalse (by simp)
  | .ok _, .error _ => isFalse (by simp)

/-- The `mexFunction` of `GCRS2ITRS.c`: argument-count and dimensionality
validation, EOP resolution, the TT→UT1 conversion, rotation composition and
the batch transform.  An `Except.error` models `mexErrMsgTxt` (fatal, no
output); the `List String` collects `mexWarnMsgTxt` messages of a completed
call. -/
def mexFunction (ext : Ext) (nlhs : Nat) (prhs : List MxArray) :
    Except String (List String × MexOutput) :=
  let nrhs := prhs.length
  if nrhs < 3 ∨ 7 < nrhs then .error "Wrong number of inputs" else
  if 2 < nlhs then .error "Wrong number of outputs." else
  let x := prhs.getD 0 emptyMx
  let numRow := x.m
  let numVec := x.n
  if ¬ (numRow = 3 ∨ numRow = 6) then
    .error "The input vector has a bad dimensionality." else
  let TT1 := getDoubleFromMatlab (prhs.getD 1 emptyMx)
  let TT2 := getDoubleFromMatlab (prhs.getD 2 emptyMx)
  match resolveEOP ext prhs TT1 TT2 with
  | .error e => .error e
  | .ok (warns, deltaT, xp, yp, dX, dY, LOD) =>
    let ut := ext.iauTtut1 TT1 TT2 deltaT
    let B := composeBundle ext TT1 TT2 ut.1 ut.2 xp yp dX dY LOD
    let retData := transformBatch B numRow numVec x.data
    let rotMat := if 1 < nlhs then some B.GCRS2ITRS else none
    .ok (warns, ⟨⟨numRow, numVec, retData⟩, rotMat⟩)

/-! ## Concrete instantiations of the external collaborators, used by the
witnesses and counterexamples -/

/-- A well-behaved instantiation of the externals: every time-scale status
is 0 and `getEOP` returns well-shaped data. -/
def extA : Ext where
  iauTttai := fun a b => (0, a, b)
  iauTaiutc := fun a b => (0, a, b)
  getEOP := fun u v => (⟨2, 1, [u, v]⟩, ⟨2, 1, [1, 2]⟩, ⟨1, 1, [0]⟩, ⟨1, 1, [3]⟩, ⟨1, 1, [4]⟩)
  iauTtut1 := fun a b d => (a, b - d / 86400)
  iauXys06a := fun a b => (a + b, a - b, a * b)
  iauC2ixys := fun x y s => ⟨⟨x, y, s⟩, ⟨y, s, x⟩, ⟨s, x, y⟩⟩
  iauEra00 := fun a b => a + 2 * b
  iauSp00 := fun a b => a - b
  iauPom00 := fun xp yp sp => ⟨⟨1, xp, yp⟩, ⟨sp, 1, xp⟩, ⟨yp, sp, 1⟩⟩
  iauC2tcio := fun a e p =>
    ⟨⟨dot a.r0 p.r0, e, dot a.r0 p.r2⟩, ⟨dot a.r1 p.r1, e + 1, a.r1.z⟩,
     ⟨p.r2.x, a.r2.y, e * 2⟩⟩
  meanEarthRotationRate := 7

/-- An instantiation whose TAI→UTC conversion reports an unacceptable
date. -/
def extUnacceptable : Ext := { extA with iauTaiutc := fun _ _ => (-1, 0, 0) }

/-- An instantiation whose TAI→UTC conversion reports a dubious date. -/
def extDubious : Ext := { extA with iauTaiutc := fun a b => (1, a, b) }

/-- A concrete rotation bundle for batch-loop witnesses. -/
def bundleW : Bundle := ⟨⟨⟨1, 2, 3⟩, ⟨4, 5, 6⟩, ⟨7, 8, 9⟩⟩, identMat3, identMat3, ⟨0, 0, 1⟩⟩

/-- An instantiation whose two-part-date collaborators depend on their
two-part dates only through the sum, as the SOFA interface specifies. -/
def extSum : Ext where
  iauTttai := fun a b => (0, a + b, 0)
  iauTaiutc := fun a b => (0, a, b)
  getEOP := fun u v => (⟨2, 1, [u, v]⟩, ⟨2, 1, [1, 2]⟩, ⟨1, 1, [0]⟩, ⟨1, 1, [3]⟩, ⟨1, 1, [4]⟩)
  iauTtut1 := fun a b d => (a + b - d / 86400, 0)
  iauXys06a := fun a b => (a + b, a + b + 1, 2 * (a + b))
  iauC2ixys := fun x y s => ⟨⟨x, y, s⟩, ⟨y, s, x⟩, ⟨s, x, y⟩⟩
  iauEra00 := fun a b => a + 2 * b
  iauSp00 := fun a b => a + b
  iauPom00 := fun xp yp sp => ⟨⟨1, xp, yp⟩, ⟨sp, 1, xp⟩, ⟨yp, sp, 1⟩⟩
  iauC2tcio := fun a e p =>
    ⟨⟨dot a.r0 p.r0, e, dot a.r0 p.r2⟩, ⟨dot a.r1 p.r1, e + 1, a.r1.z⟩,
     ⟨p.r2.x, a.r2.y, e * 2⟩⟩
  meanEarthRotationRate := 7

/-! ## Helper lemmas about the batch loop -/

/-- Each output column of the loop has the row count of the input batch
(6 entries when velocity rows are present, 3 otherwise). -/
theorem length_transformCol (B : Bundle) (r : Nat) (data : List ℚ) (j : Nat) :
    (transformCol B r data j).length = if 3 < r then 6 else 3 := by
  unfold transformCol
  split <;> rfl

/-- Column extraction from the flattening of equal-length lists. -/
theorem flatten_col (L : Nat) : ∀ (ls : List (List ℚ)) (j : Nat),
    (∀ l ∈ ls, l.length = L) → j < ls.length →
    ((ls.flatten.drop (L * j)).take L) = ls.getD j [] := by
  intro ls
  induction ls with
  | nil => intro j _ hj; simp at hj
  | cons a t ih =>
    intro j hall hj
    have ha : a.length = L := hall a (by simp)
    cases j with
    | zero =>
      simp only [List.flatten_cons, Nat.mul_zero, List.drop_zero, List.getD_cons_zero]
      exact List.take_left' ha
    | succ k =>
      have hmul : L * (k + 1) = a.length + L * k := by rw [ha]; ring
      rw [List.flatten_cons, hmul, ← List.drop_drop, List.drop_left, List.getD_cons_succ]
      exact ih k (fun l hl => hall l (List.mem_cons_of_mem a hl)) (by simpa using hj)

/-- The length of the flattening of `n` equal-length lists. -/
theorem flatten_length (L : Nat) (f : Nat → List ℚ) (hf : ∀ i, (f i).length = L) :
    ∀ n : Nat, ((List.range n).map f).flatten.length = n * L := by
  intro n
  induction n with
  | zero => simp
  | succ m ih =>
    rw [List.range_succ, List.map_append, List.flatten_append, List.length_append, ih]
    simp [hf, Nat.succ_mul]

/-- The output batch is `numVec` columns of `numRow` entries. -/
theorem length_transformBatch (B : Bundle) (r numVec : Nat) (data : List ℚ)
    (hr : r = 3 ∨ r = 6) :
    (transformBatch B r numVec data).length = numVec * r := by
  unfold transformBatch
  rw [flatten_length r _ (fun i => ?_) numVec]
  rw [length_transformCol]
  rcases hr with h | h <;> subst h <;> rfl

/-- Column `j` of the output batch is the transform of the loop body at
`j`. -/
theorem transformBatch_col (B : Bundle) (r numVec : Nat) (data : List ℚ) (j : Nat)
    (hr : r = 3 ∨ r = 6) (hj : j < numVec) :
    ((transformBatch B r numVec data).drop (r * j)).take r = transformCol B r data j := by
  unfold transformBatch
  have hlen : ∀ l ∈ (List.range numVec).map (transformCol B r data), l.length = r := by
    intro l hl
    obtain ⟨i, _, rfl⟩ := List.mem_map.mp hl
    rw [length_transformCol]
    rcases hr with h | h <;> subst h <;> rfl
  rw [flatten_col r _ j hlen (by simpa using hj)]
  rw [List.getD_eq_getElem?_getD, List.getElem?_map, List.getElem?_range hj]
  rfl

/-- Reading inside the `j`-th column slice is reading the flat batch at the
column offset. -/
theorem getD_slice (data : List ℚ) (r j i : Nat) (hi : i < r) :
    ((data.drop (r * j)).take r).getD i 0 = data.getD (r * j + i) 0 := by
  rw [List.getD_eq_getElem?_getD, List.getD_eq_getElem?_getD,
    List.getElem?_take_of_lt hi, List.getElem?_drop]

/-- `colVec3` only looks at the column slice. -/
theorem colVec3_slice (data : List ℚ) (r j off : Nat) (h : off + 2 < r) :
    colVec3 ((data.drop (r * j)).take r) r 0 off = colVec3 data r j off := by
  unfold colVec3
  rw [Nat.mul_zero, Nat.zero_add]
  rw [getD_slice data r j off (by omega), getD_slice data r j (off + 1) (by omega),
    getD_slice data r j (off + 2) (by omega)]
  rw [Nat.add_assoc, Nat.add_assoc]

/-- The loop body is a pure function of the bundle and its own input
column. -/
theorem transformCol_slice (B : Bundle) (r : Nat) (data : List ℚ) (j : Nat)
    (hr : r = 3 ∨ r = 6) :
    transformCol B r data j = transformCol B r ((data.drop (r * j)).take r) 0 := by
  rcases hr with h | h <;> subst h
  · simp only [transformCol, if_neg (show ¬ (3:Nat) < 3 by omega)]
    rw [colVec3_slice data 3 j 0 (by omega)]
  · simp only [transformCol, if_pos (show (3:Nat) < 6 by omega)]
    rw [colVec3_slice data 6 j 0 (by omega), colVec3_slice data 6 j 3 (by omega)]

/-- A 3-row column only uses the `GCRS2ITRS` matrix of the bundle. -/
theorem transformCol_pos_only (B B' : Bundle) (h : B.GCRS2ITRS = B'.GCRS2ITRS)
    (data : List ℚ) (j : Nat) :
    transformCol B 3 data j = transformCol B' 3 data j := by
  simp only [transformCol, if_neg (show ¬ (3:Nat) < 3 by omega)]
  rw [h]

/-- A 3-row batch only uses the `GCRS2ITRS` matrix of the bundle. -/
theorem transformBatch_pos_only (B B' : Bundle) (h : B.GCRS2ITRS = B'.GCRS2ITRS)
    (n : Nat) (data : List ℚ) :
    transformBatch B 3 n data = transformBatch B' 3 n data := by
  unfold transformBatch
  congr 1
  exact List.map_congr_left (fun j _ => transformCol_pos_only B B' h data j)

/-- The three rotation matrices of the bundle do not depend on the LOD. -/
theorem composeBundle_GCRS2ITRS_lod (ext : Ext) (TT1 TT2 u1 u2 xp yp dX dY La Lb : ℚ) :
    (composeBundle ext TT1 TT2 u1 u2 xp yp dX dY La).GCRS2ITRS =
      (composeBundle ext TT1 TT2 u1 u2 xp yp dX dY Lb).GCRS2ITRS := rfl

/-! ## Reduction lemmas for the call pipeline -/

/-- An optional pair override that is absent or well-shaped succeeds. -/
theorem pairOverride_ok (app : Prop) [Decidable app] (a : MxArray) (msg : String)
    (d : ℚ × ℚ) (h : (app ∧ ¬ mxIsEmpty a) → pairShapeOK a) :
    ∃ v, pairOverride app a msg d = .ok v := by
  unfold pairOverride
  by_cases hc : app ∧ ¬ mxIsEmpty a
  · rw [if_pos hc, if_pos (h hc)]
    exact ⟨_, rfl⟩
  · rw [if_neg hc]
    exact ⟨_, rfl⟩

/-- A failing lookup propagates through EOP resolution. -/
theorem resolveEOP_error_of_lookup (ext : Ext) (prhs : List MxArray) (TT1 TT2 : ℚ)
    (e : String) (hlook : needsLookup prhs) (hL : lookupEOP ext TT1 TT2 = .error e) :
    resolveEOP ext prhs TT1 TT2 = .error e := by
  unfold resolveEOP
  rw [if_pos hlook, hL]

/-- A successful lookup followed by passing shape checks yields a resolved
EOP set carrying the lookup's warnings. -/
theorem resolveEOP_ok_of_lookup (ext : Ext) (prhs : List MxArray) (TT1 TT2 : ℚ)
    (warns : List String) (xp0 yp0 dX0 dY0 dT0 LOD0 : ℚ)
    (hlook : needsLookup prhs)
    (hL : lookupEOP ext TT1 TT2 = .ok (warns, (xp0, yp0), (dX0, dY0), dT0, LOD0))
    (hp4 : (4 < prhs.length ∧ ¬ mxIsEmpty (prhs.getD 4 emptyMx)) →
      pairShapeOK (prhs.getD 4 emptyMx))
    (hp5 : (5 < prhs.length ∧ ¬ mxIsEmpty (prhs.getD 5 emptyMx)) →
      pairShapeOK (prhs.getD 5 emptyMx)) :
    ∃ deltaT xp yp dX dY LOD,
      resolveEOP ext prhs TT1 TT2 = .ok (warns, deltaT, xp, yp, dX, dY, LOD) := by
  unfold resolveEOP
  rw [if_pos hlook, hL]
  obtain ⟨⟨xp, yp⟩, hv4⟩ := pairOverride_ok (4 < prhs.length) (prhs.getD 4 emptyMx)
    "The celestial pole offsets have the wrong dimensionality." (xp0, yp0) hp4
  obtain ⟨⟨dX, dY⟩, hv5⟩ := pairOverride_ok (5 < prhs.length) (prhs.getD 5 emptyMx)
    "The polar motion coordinates have the wrong dimensionality." (dX0, dY0) hp5
  simp only [hv4, hv5]
  exact ⟨_, _, _, _, _, _, rfl⟩

/-- A resolution error aborts the call with that error. -/
theorem mexFunction_error_of_resolve (ext : Ext) (nlhs : Nat) (x t1 t2 : MxArray)
    (rest : List MxArray) (e : String)
    (hlen : rest.length ≤ 4) (hn : nlhs ≤ 2) (hx : x.m = 3 ∨ x.m = 6)
    (hres : resolveEOP ext (x :: t1 :: t2 :: rest)
      (getDoubleFromMatlab t1) (getDoubleFromMatlab t2) = .error e) :
    mexFunction ext nlhs (x :: t1 :: t2 :: rest) = .error e := by
  have hcnt : ¬ ((x :: t1 :: t2 :: rest).length < 3 ∨ 7 < (x :: t1 :: t2 :: rest).length) := by
    simp only [List.length_cons]
    omega
  simp only [mexFunction, if_neg hcnt, if_neg (Nat.not_lt.mpr hn)]
  simp only [List.getD_cons_zero, List.getD_cons_succ]
  rw [if_neg (not_not_intro hx), hres]

/-- A successful resolution completes the call: the output batch is the
transform of the input batch by the bundle composed from the resolved EOP,
and the second output, when requested, is the GCRS-to-ITRS matrix. -/
theorem mexFunction_ok_of_resolve (ext : Ext) (nlhs : Nat) (x t1 t2 : MxArray)
    (rest : List MxArray) (warns : List String) (deltaT xp yp dX dY LOD : ℚ)
    (hlen : rest.length ≤ 4) (hn : nlhs ≤ 2) (hx : x.m = 3 ∨ x.m = 6)
    (hres : resolveEOP ext (x :: t1 :: t2 :: rest)
      (getDoubleFromMatlab t1) (getDoubleFromMatlab t2) =
      .ok (warns, deltaT, xp, yp, dX, dY, LOD)) :
    mexFunction ext nlhs (x :: t1 :: t2 :: rest) =
      .ok (warns,
        ⟨⟨x.m, x.n,
          transformBatch
            (composeBundle ext (getDoubleFromMatlab t1) (getDoubleFromMatlab t2)
              (ext.iauTtut1 (getDoubleFromMatlab t1) (getDoubleFromMatlab t2) deltaT).1
              (ext.iauTtut1 (getDoubleFromMatlab t1) (getDoubleFromMatlab t2) deltaT).2
              xp yp dX dY LOD) x.m x.n x.data⟩,
          if 1 < nlhs then
            some (composeBundle ext (getDoubleFromMatlab t1) (getDoubleFromMatlab t2)
              (ext.iauTtut1 (getDoubleFromMatlab t1) (getDoubleFromMatlab t2) deltaT).1
              (ext.iauTtut1 (getDoubleFromMatlab t1) (getDoubleFromMatlab t2) deltaT).2
              xp yp dX dY LOD).GCRS2ITRS
          else none⟩) := by
  have hcnt : ¬ ((x :: t1 :: t2 :: rest).length < 3 ∨ 7 < (x :: t1 :: t2 :: rest).length) := by
    simp only [List.length_cons]
    omega
  simp only [mexFunction, if_neg hcnt, if_neg (Nat.not_lt.mpr hn)]
  simp only [List.getD_cons_zero, List.getD_cons_succ]
  rw [if_neg (not_not_intro hx), hres]

/-- The override tail of EOP resolution with two different final LOD values
is related by mapping the LOD component. -/
theorem resolveTailEq (e4 e5 : Except String (ℚ × ℚ)) (warns : List String)
    (dT va vb : ℚ) :
    (match e4 with
     | .error e => (.error e : Except String (List String × ℚ × ℚ × ℚ × ℚ × ℚ × ℚ))
     | .ok (xp, yp) =>
       match e5 with
       | .error e => .error e
       | .ok (dX, dY) => .ok (warns, dT, xp, yp, dX, dY, va)) =
      Except.map
        (fun t => (t.1, t.2.1, t.2.2.1, t.2.2.2.1, t.2.2.2.2.1, t.2.2.2.2.2.1, va))
        (match e4 with
         | .error e => (.error e : Except String (List String × ℚ × ℚ × ℚ × ℚ × ℚ × ℚ))
         | .ok (xp, yp) =>
           match e5 with
           | .error e => .error e
           | .ok (dX, dY) => .ok (warns, dT, xp, yp, dX, dY, vb)) := by
  cases e4 with
  | error e => rfl
  | ok v4 =>
    obtain ⟨xp, yp⟩ := v4
    cases e5 with
    | error e => rfl
    | ok v5 =>
      obtain ⟨dX, dY⟩ := v5
      rfl

/-- EOP resolution on two 7-argument calls differing only in a non-empty
LOD argument: the results agree except that the resolved LOD tracks the
supplied argument. -/
theorem resolveEOP_lod (ext : Ext) (x t1 t2 d p c a b : MxArray) (TT1 TT2 : ℚ)
    (ha : ¬ mxIsEmpty a) (hb : ¬ mxIsEmpty b) :
    resolveEOP ext [x, t1, t2, d, p, c, a] TT1 TT2 =
      Except.map
        (fun t => (t.1, t.2.1, t.2.2.1, t.2.2.2.1, t.2.2.2.2.1, t.2.2.2.2.2.1,
          getDoubleFromMatlab a))
        (resolveEOP ext [x, t1, t2, d, p, c, b] TT1 TT2) := by
  have hneed : needsLookup [x, t1, t2, d, p, c, a] ↔ needsLookup [x, t1, t2, d, p, c, b] := by
    simp [needsLookup, ha, hb]
  simp only [resolveEOP]
  by_cases hn : needsLookup [x, t1, t2, d, p, c, b]
  · rw [if_pos (hneed.mpr hn), if_pos hn]
    cases hL : lookupEOP ext TT1 TT2 with
    | error e => rfl
    | ok val =>
      obtain ⟨warns, ⟨xp0, yp0⟩, ⟨dX0, dY0⟩, dT0, LOD0⟩ := val
      simp [ha, hb]
      exact resolveTailEq _ _ _ _ _ _
  · rw [if_neg (fun hcon => hn (hneed.mp hcon)), if_neg hn]
    simp [ha, hb]
    exact resolveTailEq _ _ _ _ _ _

/-! ## Claims -/

/-- C5: for every call the angular-velocity vector `Omega` built by the
rotation-composition stage has the exact form `[0, 0, ω]` with
`ω = meanEarthRotationRate * (1 - LOD/86400)`, and for `LOD = 0` the speed
`ω` is exactly the nominal mean Earth rotation rate. -/
theorem c5_omega_form (ext : Ext) (TT1 TT2 UT11 UT12 xp yp dX dY LOD : ℚ) :
    (composeBundle ext TT1 TT2 UT11 UT12 xp yp dX dY LOD).Omega =
      ⟨0, 0, ext.meanEarthRotationRate * (1 - LOD / 86400)⟩ ∧
    (LOD = 0 →
      (composeBundle ext TT1 TT2 UT11 UT12 xp yp dX dY LOD).Omega =
        ⟨0, 0, ext.meanEarthRotationRate⟩) := by
  refine ⟨rfl, ?_⟩
  intro h
  subst h
  simp [composeBundle]

/-- Witness for C5 at a concrete input with `LOD = 0`. -/
theorem c5_witness :
    (composeBundle extA 1 2 3 4 5 6 7 8 0).Omega =
      ⟨0, 0, extA.meanEarthRotationRate * (1 - 0 / 86400)⟩ ∧
    ((0:ℚ) = 0 →
      (composeBundle extA 1 2 3 4 5 6 7 8 0).Omega =
        ⟨0, 0, extA.meanEarthRotationRate⟩) :=
  c5_omega_form extA 1 2 3 4 5 6 7 8 0

/-- C10: the two shape-validation error strings are swapped relative to the
arguments they check: a malformed polar-motion argument (the 4th optional
input, `xpyp`) raises "The celestial pole offsets have the wrong
dimensionality.", while a malformed celestial-pole-offset argument (the 5th
optional input, `dXdY`) raises "The polar motion coordinates have the wrong
dimensionality.". -/
theorem c10_swapped_messages (ext : Ext) (nlhs : Nat)
    (x t1 t2 d p c l pBad cBad : MxArray)
    (hx : x.m = 3 ∨ x.m = 6) (hn : nlhs ≤ 2)
    (hd : ¬ mxIsEmpty d) (hp : ¬ mxIsEmpty p) (hc : ¬ mxIsEmpty c)
    (hl : ¬ mxIsEmpty l)
    (hpGood : pairShapeOK p)
    (hpBad : ¬ mxIsEmpty pBad) (hpShape : ¬ pairShapeOK pBad)
    (hcBad : ¬ mxIsEmpty cBad) (hcShape : ¬ pairShapeOK cBad) :
    mexFunction ext nlhs [x, t1, t2, d, pBad, c, l] =
      .error "The celestial pole offsets have the wrong dimensionality." ∧
    mexFunction ext nlhs [x, t1, t2, d, p, cBad, l] =
      .error "The polar motion coordinates have the wrong dimensionality." := by
  constructor <;>
    simp [mexFunction, resolveEOP, pairOverride, needsLookup, hd, hp, hc, hl,
      hpBad, hpShape, hcBad, hcShape, hpGood, hx, Nat.not_lt.mpr hn]

/-- Witness for C10: a 3-element polar-motion argument and a 3-element
celestial-pole-offset argument at an otherwise well-formed call. -/
theorem c10_witness :
    mexFunction extA 2
      [⟨3, 1, [1, 2, 3]⟩, ⟨1, 1, [10]⟩, ⟨1, 1, [20]⟩, ⟨1, 1, [5]⟩,
       ⟨3, 1, [1, 2, 3]⟩, ⟨2, 1, [0, 0]⟩, ⟨1, 1, [0]⟩] =
      .error "The celestial pole offsets have the wrong dimensionality." ∧
    mexFunction extA 2
      [⟨3, 1, [1, 2, 3]⟩, ⟨1, 1, [10]⟩, ⟨1, 1, [20]⟩, ⟨1, 1, [5]⟩,
       ⟨2, 1, [0, 0]⟩, ⟨3, 1, [1, 2, 3]⟩, ⟨1, 1, [0]⟩] =
      .error "The polar motion coordinates have the wrong dimensionality." :=
  c10_swapped_messages extA 2 ⟨3, 1, [1, 2, 3]⟩ ⟨1, 1, [10]⟩ ⟨1, 1, [20]⟩
    ⟨1, 1, [5]⟩ ⟨2, 1, [0, 0]⟩ ⟨2, 1, [0, 0]⟩ ⟨1, 1, [0]⟩
    ⟨3, 1, [1, 2, 3]⟩ ⟨3, 1, [1, 2, 3]⟩
    (by decide) (by decide) (by decide) (by decide) (by decide) (by decide)
    (by decide) (by decide) (by decide) (by decide) (by decide)

/-- C1: on a 6-row batch the call completes with, for every column `j`, the
position rotated by GCRS2ITRS, and the velocity computed by the four-step
transport-theorem procedure: position and velocity rotated into TIRS by
GCRS2TIRS, the rotational contribution `Omega × posTIRS` formed by cross
product, subtracted from the TIRS velocity, and the result rotated into the
ITRS by the polar-motion matrix. -/
theorem c1_velocity_transport (ext : Ext) (x t1 t2 d p c l : MxArray) (j : Nat)
    (hx : x.m = 6)
    (hd : ¬ mxIsEmpty d) (hp : ¬ mxIsEmpty p) (hc : ¬ mxIsEmpty c)
    (hl : ¬ mxIsEmpty l) (hpS : pairShapeOK p) (hcS : pairShapeOK c)
    (hj : j < x.n) :
    (let TT1 := getDoubleFromMatlab t1
     let TT2 := getDoubleFromMatlab t2
     let ut := ext.iauTtut1 TT1 TT2 (getDoubleFromMatlab d)
     let B := composeBundle ext TT1 TT2 ut.1 ut.2 (p.data.getD 0 0)
       (p.data.getD 1 0) (c.data.getD 0 0) (c.data.getD 1 0) (getDoubleFromMatlab l)
     let out := transformBatch B 6 x.n x.data
     let pos := colVec3 x.data 6 j 0
     let vel := colVec3 x.data 6 j 3
     let posTIRS := iauRxp B.GCRS2TIRS pos
     let velTIRS := iauRxp B.GCRS2TIRS vel
     let rotVel := iauPxp B.Omega posTIRS
     let velITRS := iauRxp B.rpom (iauPmp velTIRS rotVel)
     let posITRS := iauRxp B.GCRS2ITRS pos
     mexFunction ext 2 [x, t1, t2, d, p, c, l] =
       .ok ([], ⟨⟨6, x.n, out⟩, some B.GCRS2ITRS⟩) ∧
     (out.drop (6 * j)).take 6 =
       [posITRS.x, posITRS.y, posITRS.z, velITRS.x, velITRS.y, velITRS.z]) := by
  have hres : resolveEOP ext [x, t1, t2, d, p, c, l]
      (getDoubleFromMatlab t1) (getDoubleFromMatlab t2) =
      .ok ([], getDoubleFromMatlab d, p.data.getD 0 0, p.data.getD 1 0,
        c.data.getD 0 0, c.data.getD 1 0, getDoubleFromMatlab l) := by
    simp [resolveEOP, pairOverride, needsLookup, hd, hp, hc, hl, hpS, hcS]
  have h1 := mexFunction_ok_of_resolve ext 2 x t1 t2 [d, p, c, l] []
    (getDoubleFromMatlab d) (p.data.getD 0 0) (p.data.getD 1 0)
    (c.data.getD 0 0) (c.data.getD 1 0) (getDoubleFromMatlab l)
    (by simp) (by omega) (Or.inr hx) hres
  rw [hx] at h1
  constructor
  · simpa using h1
  · rw [transformBatch_col _ 6 x.n x.data j (Or.inr rfl) hj]
    simp only [transformCol, if_pos (show (3:Nat) < 6 by omega)]

/-- C2: for a valid batch the output length equals the input length, each
output column is a pure function of the rotation bundle and its own input
column only (in particular batch order is preserved and, for 3-row batches,
each output column is GCRS2ITRS times the input column), and columns with
equal input slices produce equal output slices, so a batch of identical
input vectors yields identical output vectors. -/
theorem c2_batch_pointwise (B : Bundle) (r numVec : Nat) (data : List ℚ)
    (hr : r = 3 ∨ r = 6) (hdata : data.length = r * numVec) :
    (transformBatch B r numVec data).length = data.length ∧
    (∀ j, j < numVec →
      ((transformBatch B r numVec data).drop (r * j)).take r =
        transformCol B r ((data.drop (r * j)).take r) 0) ∧
    (r = 3 → ∀ j, j < numVec →
      ((transformBatch B r numVec data).drop (r * j)).take r =
        [(iauRxp B.GCRS2ITRS (colVec3 data 3 j 0)).x,
         (iauRxp B.GCRS2ITRS (colVec3 data 3 j 0)).y,
         (iauRxp B.GCRS2ITRS (colVec3 data 3 j 0)).z]) ∧
    (∀ j k, j < numVec → k < numVec →
      (data.drop (r * j)).take r = (data.drop (r * k)).take r →
      ((transformBatch B r numVec data).drop (r * j)).take r =
        ((transformBatch B r numVec data).drop (r * k)).take r) := by
  have hcol : ∀ j, j < numVec →
      ((transformBatch B r numVec data).drop (r * j)).take r =
        transformCol B r ((data.drop (r * j)).take r) 0 := by
    intro j hj
    rw [transformBatch_col B r numVec data j hr hj]
    exact transformCol_slice B r data j hr
  refine ⟨?_, hcol, ?_, ?_⟩
  · rw [length_transformBatch B r numVec data hr, hdata, Nat.mul_comm]
  · intro h3 j hj
    subst h3
    rw [transformBatch_col B 3 numVec data j hr hj]
    simp only [transformCol, if_neg (show ¬ (3:Nat) < 3 by omega)]
  · intro j k hj hk hjk
    rw [hcol j hj, hcol k hk, hjk]

/-- C7: for a 3-row (position-only) batch the supplied LOD value has no
effect: two calls that differ only in the (non-empty) LOD argument produce
identical results, including the returned rotation matrix. -/
theorem c7_lod_noninterference (ext : Ext) (nlhs : Nat) (x t1 t2 d p c a b : MxArray)
    (hx : x.m = 3) (ha : ¬ mxIsEmpty a) (hb : ¬ mxIsEmpty b) :
    mexFunction ext nlhs [x, t1, t2, d, p, c, a] =
      mexFunction ext nlhs [x, t1, t2, d, p, c, b] := by
  by_cases hnl : 2 < nlhs
  · simp [mexFunction, hnl]
  · have hn : nlhs ≤ 2 := Nat.not_lt.mp hnl
    have hlod := resolveEOP_lod ext x t1 t2 d p c a b
      (getDoubleFromMatlab t1) (getDoubleFromMatlab t2) ha hb
    cases hres : resolveEOP ext [x, t1, t2, d, p, c, b]
        (getDoubleFromMatlab t1) (getDoubleFromMatlab t2) with
    | error e =>
      rw [mexFunction_error_of_resolve ext nlhs x t1 t2 [d, p, c, b] e
            (by simp) hn (Or.inl hx) hres,
          mexFunction_error_of_resolve ext nlhs x t1 t2 [d, p, c, a] e
            (by simp) hn (Or.inl hx) (by rw [hlod, hres]; rfl)]
    | ok val =>
      obtain ⟨w, dT, xp, yp, dX, dY, LODb⟩ := val
      have hresa : resolveEOP ext [x, t1, t2, d, p, c, a]
          (getDoubleFromMatlab t1) (getDoubleFromMatlab t2) =
          .ok (w, dT, xp, yp, dX, dY, getDoubleFromMatlab a) := by
        rw [hlod, hres]
        rfl
      rw [mexFunction_ok_of_resolve ext nlhs x t1 t2 [d, p, c, a] w dT xp yp dX dY
            (getDoubleFromMatlab a) (by simp) hn (Or.inl hx) hresa,
          mexFunction_ok_of_resolve ext nlhs x t1 t2 [d, p, c, b] w dT xp yp dX dY
            LODb (by simp) hn (Or.inl hx) hres]
      rw [hx]
      have hmat := composeBundle_GCRS2ITRS_lod ext (getDoubleFromMatlab t1)
        (getDoubleFromMatlab t2)
        (ext.iauTtut1 (getDoubleFromMatlab t1) (getDoubleFromMatlab t2) dT).1
        (ext.iauTtut1 (getDoubleFromMatlab t1) (getDoubleFromMatlab t2) dT).2
        xp yp dX dY (getDoubleFromMatlab a) LODb
      rw [transformBatch_pos_only _ _ hmat x.n x.data, hmat]

/-- Witness for C7: two calls on a 3-row batch differing only in the LOD
argument (11 versus 22) produce identical results. -/
theorem c7_witness :
    mexFunction extA 2
      [⟨3, 1, [1, 2, 3]⟩, ⟨1, 1, [10]⟩, ⟨1, 1, [20]⟩, ⟨1, 1, [5]⟩,
       ⟨2, 1, [6, 7]⟩, ⟨2, 1, [8, 9]⟩, ⟨1, 1, [11]⟩] =
      mexFunction extA 2
        [⟨3, 1, [1, 2, 3]⟩, ⟨1, 1, [10]⟩, ⟨1, 1, [20]⟩, ⟨1, 1, [5]⟩,
         ⟨2, 1, [6, 7]⟩, ⟨2, 1, [8, 9]⟩, ⟨1, 1, [22]⟩] :=
  c7_lod_noninterference extA 2 ⟨3, 1, [1, 2, 3]⟩ ⟨1, 1, [10]⟩ ⟨1, 1, [20]⟩
    ⟨1, 1, [5]⟩ ⟨2, 1, [6, 7]⟩ ⟨2, 1, [8, 9]⟩ ⟨1, 1, [11]⟩ ⟨1, 1, [22]⟩
    (by decide) (by decide) (by decide)

/-- C8: the result of a call depends on the two-part TT epoch only through
the sum T1+T2: when the two-part-date collaborators respect their two-part
Julian-date interface (they depend only on the sum of the two parts), any
two splits with the same sum give the same transformed batch and rotation
matrix. -/
theorem c8_epoch_split_invariance (ext : Ext) (nlhs : Nat)
    (x t1 t2 t1' t2' : MxArray) (rest : List MxArray)
    (hlen : rest.length ≤ 4) (hn : nlhs ≤ 2) (hx : x.m = 3 ∨ x.m = 6)
    (h1 : ∀ a b a' b', a + b = a' + b' → ext.iauTttai a b = ext.iauTttai a' b')
    (h2 : ∀ a b a' b' dt, a + b = a' + b' → ext.iauTtut1 a b dt = ext.iauTtut1 a' b' dt)
    (h3 : ∀ a b a' b', a + b = a' + b' → ext.iauXys06a a b = ext.iauXys06a a' b')
    (h4 : ∀ a b a' b', a + b = a' + b' → ext.iauSp00 a b = ext.iauSp00 a' b')
    (hsum : getDoubleFromMatlab t1 + getDoubleFromMatlab t2 =
      getDoubleFromMatlab t1' + getDoubleFromMatlab t2') :
    mexFunction ext nlhs (x :: t1 :: t2 :: rest) =
      mexFunction ext nlhs (x :: t1' :: t2' :: rest) := by
  have hL : lookupEOP ext (getDoubleFromMatlab t1) (getDoubleFromMatlab t2) =
      lookupEOP ext (getDoubleFromMatlab t1') (getDoubleFromMatlab t2') := by
    unfold lookupEOP
    rw [h1 _ _ _ _ hsum]
  have hneed : needsLookup (x :: t1 :: t2 :: rest) ↔
      needsLookup (x :: t1' :: t2' :: rest) := by
    simp [needsLookup]
  have hre : resolveEOP ext (x :: t1 :: t2 :: rest)
      (getDoubleFromMatlab t1) (getDoubleFromMatlab t2) =
      resolveEOP ext (x :: t1' :: t2' :: rest)
        (getDoubleFromMatlab t1') (getDoubleFromMatlab t2') := by
    unfold resolveEOP
    by_cases hn2 : needsLookup (x :: t1' :: t2' :: rest)
    · rw [if_pos (hneed.mpr hn2), if_pos hn2, hL]
      simp
    · rw [if_neg (fun h => hn2 (hneed.mp h)), if_neg hn2]
      simp
  have hut : ∀ dt, ext.iauTtut1 (getDoubleFromMatlab t1) (getDoubleFromMatlab t2) dt =
      ext.iauTtut1 (getDoubleFromMatlab t1') (getDoubleFromMatlab t2') dt :=
    fun dt => h2 _ _ _ _ dt hsum
  have hcb : ∀ u1 u2 xp yp dX dY LOD,
      composeBundle ext (getDoubleFromMatlab t1) (getDoubleFromMatlab t2)
        u1 u2 xp yp dX dY LOD =
      composeBundle ext (getDoubleFromMatlab t1') (getDoubleFromMatlab t2')
        u1 u2 xp yp dX dY LOD := by
    intro u1 u2 xp yp dX dY LOD
    unfold composeBundle
    rw [h3 _ _ _ _ hsum, h4 _ _ _ _ hsum]
  cases hres : resolveEOP ext (x :: t1' :: t2' :: rest)
      (getDoubleFromMatlab t1') (getDoubleFromMatlab t2') with
  | error e =>
    rw [mexFunction_error_of_resolve ext nlhs x t1 t2 rest e hlen hn hx
          (hre.trans hres),
        mexFunction_error_of_resolve ext nlhs x t1' t2' rest e hlen hn hx hres]
  | ok val =>
    obtain ⟨w, dT, xp, yp, dX, dY, LOD⟩ := val
    rw [mexFunction_ok_of_resolve ext nlhs x t1 t2 rest w dT xp yp dX dY LOD
          hlen hn hx (hre.trans hres),
        mexFunction_ok_of_resolve ext nlhs x t1' t2' rest w dT xp yp dX dY LOD
          hlen hn hx hres, hut dT, hcb]

/-- Witness for C8: the splits (1, 2) and (0, 3) of the same epoch give the
same result under sum-respecting collaborators. -/
theorem c8_witness :
    mexFunction extSum 2 (⟨3, 1, [1, 2, 3]⟩ :: ⟨1, 1, [1]⟩ :: ⟨1, 1, [2]⟩ :: []) =
      mexFunction extSum 2 (⟨3, 1, [1, 2, 3]⟩ :: ⟨1, 1, [0]⟩ :: ⟨1, 1, [3]⟩ :: []) :=
  c8_epoch_split_invariance extSum 2 ⟨3, 1, [1, 2, 3]⟩ ⟨1, 1, [1]⟩ ⟨1, 1, [2]⟩
    ⟨1, 1, [0]⟩ ⟨1, 1, [3]⟩ [] (by decide) (by decide) (by decide)
    (fun a b a' b' h => by simp only [extSum]; rw [h])
    (fun a b a' b' dt h => by simp only [extSum]; rw [h])
    (fun a b a' b' h => by simp only [extSum]; rw [h])
    (fun a b a' b' h => by simp only [extSum]; rw [h])
    (by norm_num [getDoubleFromMatlab])

/-- Witness for C1 at a concrete 6-row call. -/
theorem c1_witness :
    (let TT1 := getDoubleFromMatlab ⟨1, 1, [10]⟩
     let TT2 := getDoubleFromMatlab ⟨1, 1, [20]⟩
     let ut := extA.iauTtut1 TT1 TT2 (getDoubleFromMatlab ⟨1, 1, [5]⟩)
     let B := composeBundle extA TT1 TT2 ut.1 ut.2
       (([6, 7] : List ℚ).getD 0 0) (([6, 7] : List ℚ).getD 1 0)
       (([8, 9] : List ℚ).getD 0 0) (([8, 9] : List ℚ).getD 1 0)
       (getDoubleFromMatlab ⟨1, 1, [2]⟩)
     let out := transformBatch B 6 1 [1, 2, 3, 4, 5, 6]
     let pos := colVec3 [1, 2, 3, 4, 5, 6] 6 0 0
     let vel := colVec3 [1, 2, 3, 4, 5, 6] 6 0 3
     let posTIRS := iauRxp B.GCRS2TIRS pos
     let velTIRS := iauRxp B.GCRS2TIRS vel
     let rotVel := iauPxp B.Omega posTIRS
     let velITRS := iauRxp B.rpom (iauPmp velTIRS rotVel)
     let posITRS := iauRxp B.GCRS2ITRS pos
     mexFunction extA 2
        [⟨6, 1, [1, 2, 3, 4, 5, 6]⟩, ⟨1, 1, [10]⟩, ⟨1, 1, [20]⟩, ⟨1, 1, [5]⟩,
         ⟨2, 1, [6, 7]⟩, ⟨2, 1, [8, 9]⟩, ⟨1, 1, [2]⟩] =
       .ok ([], ⟨⟨6, 1, out⟩, some B.GCRS2ITRS⟩) ∧
     (out.drop (6 * 0)).take 6 =
       [posITRS.x, posITRS.y, posITRS.z, velITRS.x, velITRS.y, velITRS.z]) :=
  c1_velocity_transport extA ⟨6, 1, [1, 2, 3, 4, 5, 6]⟩ ⟨1, 1, [10]⟩ ⟨1, 1, [20]⟩
    ⟨1, 1, [5]⟩ ⟨2, 1, [6, 7]⟩ ⟨2, 1, [8, 9]⟩ ⟨1, 1, [2]⟩ 0
    (by decide) (by decide) (by decide) (by decide) (by decide) (by decide)
    (by decide) (by decide)

/-- Witness for C2 at a concrete 3-row batch of two columns. -/
theorem c2_witness :
    (transformBatch bundleW 3 2 [1, 2, 3, 4, 5, 6]).length =
      ([1, 2, 3, 4, 5, 6] : List ℚ).length ∧
    (∀ j, j < 2 →
      ((transformBatch bundleW 3 2 [1, 2, 3, 4, 5, 6]).drop (3 * j)).take 3 =
        transformCol bundleW 3 ((([1, 2, 3, 4, 5, 6] : List ℚ).drop (3 * j)).take 3) 0) ∧
    ((3:Nat) = 3 → ∀ j, j < 2 →
      ((transformBatch bundleW 3 2 [1, 2, 3, 4, 5, 6]).drop (3 * j)).take 3 =
        [(iauRxp bundleW.GCRS2ITRS (colVec3 [1, 2, 3, 4, 5, 6] 3 j 0)).x,
         (iauRxp bundleW.GCRS2ITRS (colVec3 [1, 2, 3, 4, 5, 6] 3 j 0)).y,
         (iauRxp bundleW.GCRS2ITRS (colVec3 [1, 2, 3, 4, 5, 6] 3 j 0)).z]) ∧
    (∀ j k, j < 2 → k < 2 →
      (([1, 2, 3, 4, 5, 6] : List ℚ).drop (3 * j)).take 3 =
        (([1, 2, 3, 4, 5, 6] : List ℚ).drop (3 * k)).take 3 →
      ((transformBatch bundleW 3 2 [1, 2, 3, 4, 5, 6]).drop (3 * j)).take 3 =
        ((transformBatch bundleW 3 2 [1, 2, 3, 4, 5, 6]).drop (3 * k)).take 3) :=
  c2_batch_pointwise bundleW 3 2 [1, 2, 3, 4, 5, 6] (Or.inl rfl) (by decide)

/-- C4: supplying all four EOP groups explicitly produces a result
identical to supplying none and letting the provider return the same
numeric values (first conjunct), and the override merge is
group-by-group: supplying only deltaT behaves exactly as if the provider
had returned that deltaT, with xp/yp, dX/dY and LOD still coming from the
provider (second conjunct). -/
theorem c4_override_equivalence (ext : Ext) (nlhs : Nat) (x t1 t2 E2 E3 E4 : MxArray)
    (a1 a2 u1 u2 xp yp dX dY deltaT LOD dOv : ℚ)
    (hn : nlhs ≤ 2) (hx : x.m = 3 ∨ x.m = 6)
    (ht : ext.iauTttai (getDoubleFromMatlab t1) (getDoubleFromMatlab t2) = (0, a1, a2))
    (hu : ext.iauTaiutc a1 a2 = (0, u1, u2))
    (hg : ext.getEOP u1 u2 = (⟨2, 1, [xp, yp]⟩, ⟨2, 1, [dX, dY]⟩, E2, E3, E4))
    (hd3 : getDoubleFromMatlab E3 = deltaT)
    (hl4 : getDoubleFromMatlab E4 = LOD) :
    mexFunction ext nlhs
        [x, t1, t2, ⟨1, 1, [deltaT]⟩, ⟨2, 1, [xp, yp]⟩, ⟨2, 1, [dX, dY]⟩,
         ⟨1, 1, [LOD]⟩] =
      mexFunction ext nlhs [x, t1, t2] ∧
    mexFunction ext nlhs [x, t1, t2, ⟨1, 1, [dOv]⟩] =
      mexFunction
        { ext with getEOP := fun u v =>
            ((ext.getEOP u v).1, (ext.getEOP u v).2.1, (ext.getEOP u v).2.2.1,
             ⟨1, 1, [dOv]⟩, (ext.getEOP u v).2.2.2.2) } nlhs [x, t1, t2] := by
  have hL1 : lookupEOP ext (getDoubleFromMatlab t1) (getDoubleFromMatlab t2) =
      .ok ([], (xp, yp), (dX, dY), deltaT, LOD) := by
    simp [lookupEOP, ht, hu, hg, hd3, hl4]
  constructor
  · have hres1 : resolveEOP ext
        [x, t1, t2, ⟨1, 1, [deltaT]⟩, ⟨2, 1, [xp, yp]⟩, ⟨2, 1, [dX, dY]⟩, ⟨1, 1, [LOD]⟩]
        (getDoubleFromMatlab t1) (getDoubleFromMatlab t2) =
        .ok ([], deltaT, xp, yp, dX, dY, LOD) := by
      simp [resolveEOP, pairOverride, needsLookup, pairShapeOK, mxIsEmpty,
        getDoubleFromMatlab]
    have hres2 : resolveEOP ext [x, t1, t2]
        (getDoubleFromMatlab t1) (getDoubleFromMatlab t2) =
        .ok ([], deltaT, xp, yp, dX, dY, LOD) := by
      simp [resolveEOP, pairOverride, needsLookup, hL1]
    rw [mexFunction_ok_of_resolve ext nlhs x t1 t2
          [⟨1, 1, [deltaT]⟩, ⟨2, 1, [xp, yp]⟩, ⟨2, 1, [dX, dY]⟩, ⟨1, 1, [LOD]⟩]
          [] deltaT xp yp dX dY LOD (by simp) hn hx hres1,
        mexFunction_ok_of_resolve ext nlhs x t1 t2 [] [] deltaT xp yp dX dY LOD
          (by simp) hn hx hres2]
  · have hres1 : resolveEOP ext [x, t1, t2, ⟨1, 1, [dOv]⟩]
        (getDoubleFromMatlab t1) (getDoubleFromMatlab t2) =
        .ok ([], dOv, xp, yp, dX, dY, LOD) := by
      simp [resolveEOP, pairOverride, needsLookup, hL1, mxIsEmpty,
        show getDoubleFromMatlab ⟨1, 1, [dOv]⟩ = dOv from rfl]
    have hL2 : lookupEOP
        { ext with getEOP := fun u v =>
            ((ext.getEOP u v).1, (ext.getEOP u v).2.1, (ext.getEOP u v).2.2.1,
             ⟨1, 1, [dOv]⟩, (ext.getEOP u v).2.2.2.2) }
        (getDoubleFromMatlab t1) (getDoubleFromMatlab t2) =
        .ok ([], (xp, yp), (dX, dY), dOv, LOD) := by
      simp [lookupEOP, ht, hu, hg, hl4,
        show getDoubleFromMatlab ⟨1, 1, [dOv]⟩ = dOv from rfl]
    have hres2 : resolveEOP
        { ext with getEOP := fun u v =>
            ((ext.getEOP u v).1, (ext.getEOP u v).2.1, (ext.getEOP u v).2.2.1,
             ⟨1, 1, [dOv]⟩, (ext.getEOP u v).2.2.2.2) } [x, t1, t2]
        (getDoubleFromMatlab t1) (getDoubleFromMatlab t2) =
        .ok ([], dOv, xp, yp, dX, dY, LOD) := by
      simp [resolveEOP, pairOverride, needsLookup, hL2]
    rw [mexFunction_ok_of_resolve ext nlhs x t1 t2 [⟨1, 1, [dOv]⟩] [] dOv xp yp dX dY
          LOD (by simp) hn hx hres1,
        mexFunction_ok_of_resolve _ nlhs x t1 t2 [] [] dOv xp yp dX dY LOD
          (by simp) hn hx hres2]
    rfl

/-- Witness for C4 at a concrete call: full override versus provider
lookup, and deltaT-only override versus a provider returning that
deltaT. -/
theorem c4_witness :
    mexFunction extA 2
        [⟨3, 1, [1, 2, 3]⟩, ⟨1, 1, [10]⟩, ⟨1, 1, [20]⟩, ⟨1, 1, [3]⟩,
         ⟨2, 1, [10, 20]⟩, ⟨2, 1, [1, 2]⟩, ⟨1, 1, [4]⟩] =
      mexFunction extA 2 [⟨3, 1, [1, 2, 3]⟩, ⟨1, 1, [10]⟩, ⟨1, 1, [20]⟩] ∧
    mexFunction extA 2
        [⟨3, 1, [1, 2, 3]⟩, ⟨1, 1, [10]⟩, ⟨1, 1, [20]⟩, ⟨1, 1, [9]⟩] =
      mexFunction
        { extA with getEOP := fun u v =>
            ((extA.getEOP u v).1, (extA.getEOP u v).2.1, (extA.getEOP u v).2.2.1,
             ⟨1, 1, [9]⟩, (extA.getEOP u v).2.2.2.2) } 2
        [⟨3, 1, [1, 2, 3]⟩, ⟨1, 1, [10]⟩, ⟨1, 1, [20]⟩] :=
  c4_override_equivalence extA 2 ⟨3, 1, [1, 2, 3]⟩ ⟨1, 1, [10]⟩ ⟨1, 1, [20]⟩
    ⟨1, 1, [0]⟩ ⟨1, 1, [3]⟩ ⟨1, 1, [4]⟩ 10 20 10 20 10 20 1 2 3 4 9
    (by decide) (by decide) (by decide) (by decide) (by decide) (by decide)
    (by decide)

/-- C6: on the EOP-lookup path, a TAI→UTC status of 1 ("dubious date")
produces a non-fatal warning and the call completes with output, while a
status of -1 ("unacceptable date") aborts the call fatally with no
output. -/
theorem c6_date_handling (ext : Ext) (nlhs : Nat) (x t1 t2 : MxArray)
    (rest : List MxArray) (a1 a2 u1 u2 : ℚ) (s : Int)
    (hlen : rest.length ≤ 4) (hn : nlhs ≤ 2) (hx : x.m = 3 ∨ x.m = 6)
    (hlook : needsLookup (x :: t1 :: t2 :: rest))
    (ht : ext.iauTttai (getDoubleFromMatlab t1) (getDoubleFromMatlab t2) = (0, a1, a2))
    (hu : ext.iauTaiutc a1 a2 = (s, u1, u2))
    (hg : (ext.getEOP u1 u2).1.m = 2 ∧ (ext.getEOP u1 u2).1.n = 1 ∧
          (ext.getEOP u1 u2).2.1.m = 2 ∧ (ext.getEOP u1 u2).2.1.n = 1)
    (hp4 : (4 < (x :: t1 :: t2 :: rest).length ∧
        ¬ mxIsEmpty ((x :: t1 :: t2 :: rest).getD 4 emptyMx)) →
        pairShapeOK ((x :: t1 :: t2 :: rest).getD 4 emptyMx))
    (hp5 : (5 < (x :: t1 :: t2 :: rest).length ∧
        ¬ mxIsEmpty ((x :: t1 :: t2 :: rest).getD 5 emptyMx)) →
        pairShapeOK ((x :: t1 :: t2 :: rest).getD 5 emptyMx)) :
    (s = 1 → ∃ out, mexFunction ext nlhs (x :: t1 :: t2 :: rest) =
        .ok (["Dubious Date entered."], out)) ∧
    (s = -1 → mexFunction ext nlhs (x :: t1 :: t2 :: rest) =
        .error "Unacceptable date entered") := by
  constructor
  · intro hs
    subst hs
    have hL : lookupEOP ext (getDoubleFromMatlab t1) (getDoubleFromMatlab t2) =
        .ok (["Dubious Date entered."],
          ((ext.getEOP u1 u2).1.data.getD 0 0, (ext.getEOP u1 u2).1.data.getD 1 0),
          ((ext.getEOP u1 u2).2.1.data.getD 0 0, (ext.getEOP u1 u2).2.1.data.getD 1 0),
          getDoubleFromMatlab (ext.getEOP u1 u2).2.2.2.1,
          getDoubleFromMatlab (ext.getEOP u1 u2).2.2.2.2) := by
      simp [lookupEOP, ht, hu, hg]
    obtain ⟨dT, xp, yp, dX, dY, LOD, hres⟩ :=
      resolveEOP_ok_of_lookup ext (x :: t1 :: t2 :: rest) _ _ _ _ _ _ _ _ _
        hlook hL hp4 hp5
    exact ⟨_, mexFunction_ok_of_resolve ext nlhs x t1 t2 rest _ dT xp yp dX dY LOD
      hlen hn hx hres⟩
  · intro hs
    subst hs
    have hL : lookupEOP ext (getDoubleFromMatlab t1) (getDoubleFromMatlab t2) =
        .error "Unacceptable date entered" := by
      simp [lookupEOP, ht, hu]
    exact mexFunction_error_of_resolve ext nlhs x t1 t2 rest _ hlen hn hx
      (resolveEOP_error_of_lookup ext _ _ _ _ hlook hL)

/-- C9: when all seven arguments are given with the four EOP overrides
non-empty, the TT→TAI→UTC conversion, its epoch validation and the EOP
lookup are skipped entirely: the result does not depend on the `iauTttai`,
`iauTaiutc` and `getEOP` collaborators at all, and in particular an epoch
they would reject completes with output and without any warning. -/
theorem c9_full_override_skips_dates (ext : Ext)
    (f g : ℚ → ℚ → Int × ℚ × ℚ)
    (gE : ℚ → ℚ → MxArray × MxArray × MxArray × MxArray × MxArray)
    (nlhs : Nat) (x t1 t2 d p c l : MxArray)
    (hn : nlhs ≤ 2) (hx : x.m = 3 ∨ x.m = 6)
    (hd : ¬ mxIsEmpty d) (hp : ¬ mxIsEmpty p) (hc : ¬ mxIsEmpty c)
    (hl : ¬ mxIsEmpty l) (hpS : pairShapeOK p) (hcS : pairShapeOK c) :
    mexFunction { ext with iauTttai := f, iauTaiutc := g, getEOP := gE } nlhs
        [x, t1, t2, d, p, c, l] =
      mexFunction ext nlhs [x, t1, t2, d, p, c, l] ∧
    ∃ out, mexFunction ext nlhs [x, t1, t2, d, p, c, l] = .ok ([], out) := by
  constructor
  · simp [mexFunction, resolveEOP, pairOverride, needsLookup, hd, hp, hc, hl,
      hpS, hcS, hx, Nat.not_lt.mpr hn]
    exact ⟨rfl, rfl⟩
  · have hres : resolveEOP ext [x, t1, t2, d, p, c, l]
        (getDoubleFromMatlab t1) (getDoubleFromMatlab t2) =
        .ok ([], getDoubleFromMatlab d, p.data.getD 0 0, p.data.getD 1 0,
          c.data.getD 0 0, c.data.getD 1 0, getDoubleFromMatlab l) := by
      simp [resolveEOP, pairOverride, needsLookup, hd, hp, hc, hl, hpS, hcS]
    exact ⟨_, mexFunction_ok_of_resolve ext nlhs x t1 t2 [d, p, c, l] []
      (getDoubleFromMatlab d) (p.data.getD 0 0) (p.data.getD 1 0)
      (c.data.getD 0 0) (c.data.getD 1 0) (getDoubleFromMatlab l)
      (by simp) hn hx hres⟩

/-- Witness for C6: a dubious date warns and completes; an unacceptable
date aborts. -/
theorem c6_witness :
    (∃ out, mexFunction extDubious 2 [⟨3, 1, [1, 2, 3]⟩, ⟨1, 1, [10]⟩, ⟨1, 1, [20]⟩] =
        .ok (["Dubious Date entered."], out)) ∧
    mexFunction extUnacceptable 2 [⟨3, 1, [1, 2, 3]⟩, ⟨1, 1, [10]⟩, ⟨1, 1, [20]⟩] =
      .error "Unacceptable date entered" := by
  constructor
  · exact (c6_date_handling extDubious 2 ⟨3, 1, [1, 2, 3]⟩ ⟨1, 1, [10]⟩ ⟨1, 1, [20]⟩
      [] 10 20 10 20 1 (by decide) (by decide) (by decide) (by decide) (by decide)
      (by decide) (by decide) (by decide) (by decide)).1 rfl
  · exact (c6_date_handling extUnacceptable 2 ⟨3, 1, [1, 2, 3]⟩ ⟨1, 1, [10]⟩ ⟨1, 1, [20]⟩
      [] 10 20 0 0 (-1) (by decide) (by decide) (by decide) (by decide) (by decide)
      (by decide) (by decide) (by decide) (by decide)).2 rfl

/-- Witness for C9: with all four EOP groups supplied, even externals that
reject every date and return malformed EOP data leave the call's result
unchanged, and the call completes without warnings. -/
theorem c9_witness :
    mexFunction
        { extA with iauTttai := fun _ _ => (-1, 0, 0),
                    iauTaiutc := fun _ _ => (-1, 0, 0),
                    getEOP := fun _ _ => (emptyMx, emptyMx, emptyMx, emptyMx, emptyMx) } 2
        [⟨3, 1, [1, 2, 3]⟩, ⟨1, 1, [10]⟩, ⟨1, 1, [20]⟩, ⟨1, 1, [5]⟩,
         ⟨2, 1, [6, 7]⟩, ⟨2, 1, [8, 9]⟩, ⟨1, 1, [2]⟩] =
      mexFunction extA 2
        [⟨3, 1, [1, 2, 3]⟩, ⟨1, 1, [10]⟩, ⟨1, 1, [20]⟩, ⟨1, 1, [5]⟩,
         ⟨2, 1, [6, 7]⟩, ⟨2, 1, [8, 9]⟩, ⟨1, 1, [2]⟩] ∧
    ∃ out, mexFunction extA 2
        [⟨3, 1, [1, 2, 3]⟩, ⟨1, 1, [10]⟩, ⟨1, 1, [20]⟩, ⟨1, 1, [5]⟩,
         ⟨2, 1, [6, 7]⟩, ⟨2, 1, [8, 9]⟩, ⟨1, 1, [2]⟩] = .ok ([], out) :=
  c9_full_override_skips_dates extA (fun _ _ => (-1, 0, 0)) (fun _ _ => (-1, 0, 0))
    (fun _ _ => (emptyMx, emptyMx, emptyMx, emptyMx, emptyMx)) 2
    ⟨3, 1, [1, 2, 3]⟩ ⟨1, 1, [10]⟩ ⟨1, 1, [20]⟩ ⟨1, 1, [5]⟩ ⟨2, 1, [6, 7]⟩
    ⟨2, 1, [8, 9]⟩ ⟨1, 1, [2]⟩ (by decide) (by decide) (by decide) (by decide)
    (by decide) (by decide) (by decide) (by decide)

/-- C3 counterexample: the claim asserts that a malformed polar-motion
override (3 elements) raises its validation error before any time-scale
conversion or EOP lookup.  With the polar-motion argument `⟨3,1,[1,2,3]⟩`
malformed but `deltaTTUT1` empty, the lookup path runs first: when the
TAI→UTC conversion reports an unacceptable date, the call aborts with the
date error and no validation error is ever surfaced (first conjunct).  The
second conjunct checks that the same input does raise the shape error once
the lookup succeeds, so the shape check is performed after the time-scale
conversion and EOP lookup, contradicting the claimed ordering. -/
theorem c3_counterexample :
    mexFunction extUnacceptable 2
      [⟨3, 1, [1, 2, 3]⟩, ⟨1, 1, [10]⟩, ⟨1, 1, [20]⟩, emptyMx,
       ⟨3, 1, [1, 2, 3]⟩, ⟨2, 1, [0, 0]⟩, ⟨1, 1, [0]⟩] =
      .error "Unacceptable date entered" ∧
    mexFunction extA 2
      [⟨3, 1, [1, 2, 3]⟩, ⟨1, 1, [10]⟩, ⟨1, 1, [20]⟩, emptyMx,
       ⟨3, 1, [1, 2, 3]⟩, ⟨2, 1, [0, 0]⟩, ⟨1, 1, [0]⟩] =
      .error "The celestial pole offsets have the wrong dimensionality." := by
  decide

/-- C3 amended: a batch whose row count is not 3 or 6 raises the
dimensionality error before any model evaluation (first conjunct — the
result is this error for every instantiation of the externals); a
polar-motion override shaped as other than a 2-element pair raises a
ValidationError, surfaced before any astronomical-matrix computation (the
astronomical fields of `ext` are arbitrary in the second and the third
conjunct), but when the EOP lookup runs it precedes the shape check: the
shape error is surfaced only after a successful TT→TAI→UTC conversion and
EOP lookup (third conjunct). -/
theorem c3_validation_amended (ext : Ext) (nlhs : Nat)
    (xBad x t1 t2 d c l pBad : MxArray) (rest : List MxArray) (a1 a2 u1 u2 : ℚ)
    (hxBad : ¬ (xBad.m = 3 ∨ xBad.m = 6)) (h2 : 2 ≤ rest.length)
    (h6 : rest.length ≤ 6) (hn : nlhs ≤ 2)
    (hx : x.m = 3 ∨ x.m = 6)
    (hd : ¬ mxIsEmpty d) (hc : ¬ mxIsEmpty c) (hl : ¬ mxIsEmpty l)
    (hpBad : ¬ mxIsEmpty pBad) (hpShape : ¬ pairShapeOK pBad)
    (ht : ext.iauTttai (getDoubleFromMatlab t1) (getDoubleFromMatlab t2) = (0, a1, a2))
    (hu : ext.iauTaiutc a1 a2 = (0, u1, u2))
    (hg : (ext.getEOP u1 u2).1.m = 2 ∧ (ext.getEOP u1 u2).1.n = 1 ∧
          (ext.getEOP u1 u2).2.1.m = 2 ∧ (ext.getEOP u1 u2).2.1.n = 1) :
    mexFunction ext nlhs (xBad :: rest) =
      .error "The input vector has a bad dimensionality." ∧
    mexFunction ext nlhs [x, t1, t2, d, pBad, c, l] =
      .error "The celestial pole offsets have the wrong dimensionality." ∧
    mexFunction ext nlhs [x, t1, t2, emptyMx, pBad, c, l] =
      .error "The celestial pole offsets have the wrong dimensionality." := by
  have hEmpty : mxIsEmpty emptyMx := Or.inl rfl
  refine ⟨?_, ?_, ?_⟩
  · have hlen : ¬ ((xBad :: rest).length < 3 ∨ 7 < (xBad :: rest).length) := by
      simp only [List.length_cons]
      omega
    simp only [mexFunction, if_neg hlen, if_neg (Nat.not_lt.mpr hn)]
    simp [hxBad]
  · simp [mexFunction, resolveEOP, pairOverride, needsLookup, hd, hc, hl,
      hpBad, hpShape, hx, Nat.not_lt.mpr hn]
  · simp [mexFunction, resolveEOP, lookupEOP, pairOverride, needsLookup, hEmpty,
      hd, hc, hl, hpBad, hpShape, hx, Nat.not_lt.mpr hn, ht, hu, hg]

/-- Witness for C3 amended at concrete inputs. -/
theorem c3_witness :
    mexFunction extA 2 (⟨4, 1, [1, 2, 3, 4]⟩ :: [⟨1, 1, [10]⟩, ⟨1, 1, [20]⟩]) =
      .error "The input vector has a bad dimensionality." ∧
    mexFunction extA 2
      [⟨3, 1, [1, 2, 3]⟩, ⟨1, 1, [10]⟩, ⟨1, 1, [20]⟩, ⟨1, 1, [5]⟩,
       ⟨3, 1, [1, 2, 3]⟩, ⟨2, 1, [0, 0]⟩, ⟨1, 1, [0]⟩] =
      .error "The celestial pole offsets have the wrong dimensionality." ∧
    mexFunction extA 2
      [⟨3, 1, [1, 2, 3]⟩, ⟨1, 1, [10]⟩, ⟨1, 1, [20]⟩, emptyMx,
       ⟨3, 1, [1, 2, 3]⟩, ⟨2, 1, [0, 0]⟩, ⟨1, 1, [0]⟩] =
      .error "The celestial pole offsets have the wrong dimensionality." :=
  c3_validation_amended extA 2 ⟨4, 1, [1, 2, 3, 4]⟩ ⟨3, 1, [1, 2, 3]⟩
    ⟨1, 1, [10]⟩ ⟨1, 1, [20]⟩ ⟨1, 1, [5]⟩ ⟨2, 1, [0, 0]⟩
    ⟨1, 1, [0]⟩ ⟨3, 1, [1, 2, 3]⟩ [⟨1, 1, [10]⟩, ⟨1, 1, [20]⟩] 10 20 10 20
    (by decide) (by decide) (by decide) (by decide) (by decide) (by decide)
    (by decide) (by decide) (by decide) (by decide) (by decide) (by decide)
    (by decide)

end TCL
